import Mathlib

set_option maxRecDepth 8192

/-!
Shallow embedding of the either crate (src/lib.rs): a two-variant tagged
union with accessors, conversions to and from the result type, and
conditional capability forwarding (iteration, byte-stream reading and
writing).  All functions are total Lean definitions translated from the
Rust source; mutable borrows are modelled by explicit state passing and
borrowed views by plain values.
-/

/-- The two-variant tagged union from the source: a value of Either L R
holds either a value of type L (constructor Left) or a value of type R
(constructor Right). -/
inductive Either (L : Type) (R : Type) : Type
  | Left : L → Either L R
  | Right : R → Either L R
  deriving DecidableEq, Repr

/-- Mirror of the Rust result type with a success case ok and a failure
case err, the target and source of the conversions in the code. -/
inductive RustResult (T : Type) (E : Type) : Type
  | ok : T → RustResult T E
  | err : E → RustResult T E
  deriving DecidableEq, Repr

namespace Either

/-- Translation of Either::is_left: match on the discriminant. -/
def is_left {L R : Type} : Either L R → Bool
  | Left _ => true
  | Right _ => false

/-- Translation of Either::is_right, which the source defines as the
negation of is_left. -/
def is_right {L R : Type} (e : Either L R) : Bool :=
  !e.is_left

/-- Translation of Either::left: consume the union and yield the left
payload if present, otherwise none. -/
def left {L R : Type} : Either L R → Option L
  | Left l => some l
  | Right _ => none

/-- Translation of Either::right: consume the union and yield the right
payload if present, otherwise none. -/
def right {L R : Type} : Either L R → Option R
  | Left _ => none
  | Right r => some r

/-- Translation of Either::as_ref, which produces Either of borrows over
the payload without consuming the original; in the embedding a shared
borrow is the value itself, so the result repacks the payload under the
same constructor. -/
def as_ref {L R : Type} : Either L R → Either L R
  | Left inner => Left inner
  | Right inner => Right inner

/-- Translation of Either::flip: exchange the variants, keeping the
payload unchanged. -/
def flip {L R : Type} : Either L R → Either R L
  | Left l => Right l
  | Right r => Left r

/-- Translation of the From Result impl: Err maps to Left and Ok maps
to Right. -/
def fromResult {L R : Type} : RustResult R L → Either L R
  | .err e => Left e
  | .ok o => Right o

/-- Translation of the Into Result impl: Left maps to Err and Right maps
to Ok. -/
def intoResult {L R : Type} : Either L R → RustResult R L
  | Left l => .err l
  | Right r => .ok r

/-- Structural equality of the derived PartialEq and Eq impls: equal
discriminants compare payloads with the payload equality, different
discriminants compare unequal. -/
def beq {L R : Type} (eqL : L → L → Bool) (eqR : R → R → Bool) :
    Either L R → Either L R → Bool
  | Left a, Left b => eqL a b
  | Right a, Right b => eqR a b
  | Left _, Right _ => false
  | Right _, Left _ => false

/-- Comparison of the derived PartialOrd and Ord impls: the discriminant
is compared first in declaration order, so Left is below Right, and equal
discriminants compare payloads with the payload comparison. -/
def cmp {L R : Type} (cmpL : L → L → Ordering) (cmpR : R → R → Ordering) :
    Either L R → Either L R → Ordering
  | Left a, Left b => cmpL a b
  | Left _, Right _ => .lt
  | Right _, Left _ => .gt
  | Right a, Right b => cmpR a b

end Either

/-- Interface record for the iterator capability: the advance operation
returns the next element together with the successor state, or none on
exhaustion, and size_hint returns a lower bound and an optional upper
bound on the remaining count. -/
structure IterOps (σ : Type) (α : Type) : Type where
  next : σ → Option (α × σ)
  size_hint : σ → Nat × Option Nat

/-- Collect up to fuel elements by repeated advance calls, stopping at
exhaustion; used to compare a wrapped sequence with the direct one. -/
def IterOps.drain {σ α : Type} (I : IterOps σ α) : Nat → σ → List α
  | 0, _ => []
  | fuel + 1, s =>
    match I.next s with
    | none => []
    | some (x, s') => x :: I.drain fuel s'

/-- Interface record for the readable byte stream capability: read fills a
caller-supplied buffer and returns the new state, the byte count and the
buffer contents, or a failure; read_to_end appends the remaining bytes to
a growable buffer. -/
structure ReadOps (ε : Type) (σ : Type) : Type where
  read : σ → List Nat → Except ε (σ × Nat × List Nat)
  read_to_end : σ → List Nat → Except ε (σ × Nat × List Nat)

/-- Interface record for the writable byte stream capability: write hands
a buffer to the sink and returns the new state with the count of bytes
accepted, or a failure; flush returns the new state or a failure. -/
structure WriteOps (ε : Type) (σ : Type) : Type where
  write : σ → List Nat → Except ε (σ × Nat)
  flush : σ → Except ε σ

namespace Either

/-- Translation of the Iterator impl's next: forward the advance call to
the active variant, the state staying under the same constructor. -/
def next {σL σR α : Type} (IL : IterOps σL α) (IR : IterOps σR α) :
    Either σL σR → Option (α × Either σL σR)
  | Left s => (IL.next s).map (fun p => (p.1, Left p.2))
  | Right s => (IR.next s).map (fun p => (p.1, Right p.2))

/-- Translation of the Iterator impl's size_hint: forward to the active
variant's size_hint unchanged. -/
def size_hint {σL σR α : Type} (IL : IterOps σL α) (IR : IterOps σR α) :
    Either σL σR → Nat × Option Nat
  | Left s => IL.size_hint s
  | Right s => IR.size_hint s

/-- The iterator capability of the union, packaging the forwarded next
and size_hint. -/
def iterOps {σL σR α : Type} (IL : IterOps σL α) (IR : IterOps σR α) :
    IterOps (Either σL σR) α :=
  { next := Either.next IL IR, size_hint := Either.size_hint IL IR }

/-- Translation of the ExactSizeIterator impl, whose body is empty in the
source: len is the inherited default, the lower component of the forwarded
size_hint. -/
def len {σL σR α : Type} (IL : IterOps σL α) (IR : IterOps σR α)
    (e : Either σL σR) : Nat :=
  (Either.size_hint IL IR e).1

/-- Translation of the Read impl's read: forward to the active variant's
read, the state staying under the same constructor and the count, buffer
and failure passed through unchanged. -/
def read {ε σL σR : Type} (RL : ReadOps ε σL) (RR : ReadOps ε σR) :
    Either σL σR → List Nat → Except ε (Either σL σR × Nat × List Nat)
  | Left s, buf => (RL.read s buf).map (fun r => (Left r.1, r.2.1, r.2.2))
  | Right s, buf => (RR.read s buf).map (fun r => (Right r.1, r.2.1, r.2.2))

/-- Translation of the Read impl's read_to_end: forwarded explicitly to
the active variant's own read_to_end. -/
def read_to_end {ε σL σR : Type} (RL : ReadOps ε σL) (RR : ReadOps ε σR) :
    Either σL σR → List Nat → Except ε (Either σL σR × Nat × List Nat)
  | Left s, buf => (RL.read_to_end s buf).map (fun r => (Left r.1, r.2.1, r.2.2))
  | Right s, buf => (RR.read_to_end s buf).map (fun r => (Right r.1, r.2.1, r.2.2))

/-- Translation of the Write impl's write: forward to the active variant's
write, count and failure passed through unchanged. -/
def write {ε σL σR : Type} (WL : WriteOps ε σL) (WR : WriteOps ε σR) :
    Either σL σR → List Nat → Except ε (Either σL σR × Nat)
  | Left s, buf => (WL.write s buf).map (fun r => (Left r.1, r.2))
  | Right s, buf => (WR.write s buf).map (fun r => (Right r.1, r.2))

/-- Translation of the Write impl's flush: forward to the active variant's
flush, failure passed through unchanged. -/
def flush {ε σL σR : Type} (WL : WriteOps ε σL) (WR : WriteOps ε σR) :
    Either σL σR → Except ε (Either σL σR)
  | Left s => (WL.flush s).map Left
  | Right s => (WR.flush s).map Right

end Either

/-- The standard list sequence producer (the concrete iterator of the
spec's examples): advance yields the head and the tail, and size_hint
reports the exact remaining length. -/
def listIter (α : Type) : IterOps (List α) α where
  next s :=
    match s with
    | [] => none
    | x :: xs => some (x, xs)
  size_hint s := (s.length, some s.length)

/-- The standard readable stream over an in-memory byte slice, as in the
Rust standard library: read copies min(buffer length, source length) bytes
into the front of the buffer and advances the source past them. -/
def sliceRead (s buf : List Nat) : Except Unit (List Nat × Nat × List Nat) :=
  let amt := min buf.length s.length
  .ok (s.drop amt, amt, s.take amt ++ buf.drop amt)

/-- The byte-slice bulk read: append every remaining source byte to the
growable buffer, leaving the source empty and returning the count. -/
def sliceReadToEnd (s buf : List Nat) : Except Unit (List Nat × Nat × List Nat) :=
  .ok ([], s.length, buf ++ s)

/-- The readable-stream capability of an in-memory byte slice. -/
def sliceReadOps : ReadOps Unit (List Nat) where
  read := sliceRead
  read_to_end := sliceReadToEnd

/-- State of the standard writable stream over a mutable byte slice: the
bytes already written followed by the free space still available. -/
structure SliceSink : Type where
  written : List Nat
  free : List Nat
  deriving DecidableEq, Repr

/-- The full contents of the sink's backing array: written bytes followed
by the untouched free bytes. -/
def SliceSink.bytes (s : SliceSink) : List Nat :=
  s.written ++ s.free

/-- The byte-slice write, as in the Rust standard library: copy
min(data length, free length) bytes into the free space and return that
count. -/
def sliceWrite (s : SliceSink) (data : List Nat) : Except Unit (SliceSink × Nat) :=
  let amt := min data.length s.free.length
  .ok ({ written := s.written ++ data.take amt, free := s.free.drop amt }, amt)

/-- The byte-slice flush, which does nothing and succeeds. -/
def sliceFlush (s : SliceSink) : Except Unit SliceSink :=
  .ok s

/-- The writable-stream capability of a mutable byte slice. -/
def sliceWriteOps : WriteOps Unit SliceSink where
  write := sliceWrite
  flush := sliceFlush

/-- A writer whose operations always fail, used to exhibit verbatim
failure propagation through the union. -/
def failWriteOps : WriteOps Nat Unit where
  write _ _ := .error 7
  flush _ := .error 7

open Either

/-- C1: converting a failure value to the union and back to a result yields
the same failure, a success value round-trips likewise, and starting from
the union, converting Left or Right to a result and back yields the
original union value. -/
theorem spec_c1 (L R : Type) :
    (∀ e : L, intoResult (fromResult (RustResult.err (T := R) e)) = RustResult.err e) ∧
    (∀ o : R, intoResult (fromResult (RustResult.ok (E := L) o)) = RustResult.ok o) ∧
    (∀ l : L, fromResult (intoResult (Either.Left (R := R) l)) = Either.Left l) ∧
    (∀ r : R, fromResult (intoResult (Either.Right (L := L) r)) = Either.Right r) :=
  ⟨fun _ => rfl, fun _ => rfl, fun _ => rfl, fun _ => rfl⟩

/-- C2: Left v reports is_left true and is_right false, left yields some v
and right yields none, and symmetrically for Right v.  All four operations
are total Lean functions, so extraction from the wrong variant yields none
rather than any runtime failure. -/
theorem spec_c2 (L R : Type) :
    (∀ v : L, (Either.Left (R := R) v).is_left = true ∧
      (Either.Left (R := R) v).is_right = false ∧
      (Either.Left (R := R) v).left = some v ∧
      (Either.Left (R := R) v).right = none) ∧
    (∀ v : R, (Either.Right (L := L) v).is_right = true ∧
      (Either.Right (L := L) v).is_left = false ∧
      (Either.Right (L := L) v).right = some v ∧
      (Either.Right (L := L) v).left = none) :=
  ⟨fun _ => ⟨rfl, rfl, rfl, rfl⟩, fun _ => ⟨rfl, rfl, rfl, rfl⟩⟩

/-- C3: the conversion from the result type maps Err e to Left e and Ok o
to Right o, and the conversion to the result type maps Left l to Err l and
Right r to Ok r, for every value. -/
theorem spec_c3 (L R : Type) :
    (∀ e : L, fromResult (RustResult.err (T := R) e) = Either.Left e) ∧
    (∀ o : R, fromResult (RustResult.ok (E := L) o) = Either.Right o) ∧
    (∀ l : L, intoResult (Either.Left (R := R) l) = RustResult.err l) ∧
    (∀ r : R, intoResult (Either.Right (L := L) r) = RustResult.ok r) :=
  ⟨fun _ => rfl, fun _ => rfl, fun _ => rfl, fun _ => rfl⟩

/-- C4: flip relabels Left a to Right a and Right b to Left b with the
payload unchanged, and flipping twice yields the original union value. -/
theorem spec_c4 (L R : Type) :
    (∀ a : L, (Either.Left (R := R) a).flip = Either.Right a) ∧
    (∀ b : R, (Either.Right (L := L) b).flip = Either.Left b) ∧
    (∀ e : Either L R, e.flip.flip = e) :=
  ⟨fun _ => rfl, fun _ => rfl, fun e => by cases e <;> rfl⟩

/-- C9: as_ref repacks the payload under the same constructor (Left a to
Left of the borrow of a, Right b to Right of the borrow of b), so the view
reports the same discriminant as the original; as_ref is a pure function
of the union, so the original value is not consumed or changed. -/
theorem spec_c9 (L R : Type) :
    (∀ a : L, (Either.Left (R := R) a).as_ref = Either.Left a) ∧
    (∀ b : R, (Either.Right (L := L) b).as_ref = Either.Right b) ∧
    (∀ e : Either L R, e.as_ref.is_left = e.is_left ∧ e.as_ref.is_right = e.is_right) :=
  ⟨fun _ => rfl, fun _ => rfl, fun e => by cases e <;> exact ⟨rfl, rfl⟩⟩

/-- C10: under the derived structural equality and derived comparison,
Left a and Right b are unequal and Left a compares below Right b for all
payloads, while two values of the same variant compare exactly by their
payloads. -/
theorem spec_c10 (L R : Type) (eqL : L → L → Bool) (eqR : R → R → Bool)
    (cmpL : L → L → Ordering) (cmpR : R → R → Ordering) :
    (∀ (a : L) (b : R), Either.cmp cmpL cmpR (Either.Left a) (Either.Right b) = .lt) ∧
    (∀ (a : L) (b : R), Either.beq eqL eqR (Either.Left a) (Either.Right b) = false) ∧
    (∀ (a : R) (b : L), Either.cmp cmpL cmpR (Either.Right a) (Either.Left b) = .gt) ∧
    (∀ (a : R) (b : L), Either.beq eqL eqR (Either.Right a) (Either.Left b) = false) ∧
    (∀ a b : L, Either.cmp cmpL cmpR (Either.Left a) (Either.Left b) = cmpL a b) ∧
    (∀ a b : R, Either.cmp cmpL cmpR (Either.Right a) (Either.Right b) = cmpR a b) ∧
    (∀ a b : L, Either.beq eqL eqR (Either.Left a) (Either.Left b) = eqL a b) ∧
    (∀ a b : R, Either.beq eqL eqR (Either.Right a) (Either.Right b) = eqR a b) :=
  ⟨fun _ _ => rfl, fun _ _ => rfl, fun _ _ => rfl, fun _ _ => rfl,
   fun _ _ => rfl, fun _ _ => rfl, fun _ _ => rfl, fun _ _ => rfl⟩

/-- C5: each advance call on the union forwards to the active variant's
advance, and the union's size hint equals the active variant's size hint;
consequently the union wrapping the sequence 0, 1, 2 yields those elements
in order and then exhaustion, identical to iterating the sequence
directly, and wrapping the empty sequence yields immediate exhaustion. -/
theorem spec_c5 (σL σR α : Type) (IL : IterOps σL α) (IR : IterOps σR α) :
    (∀ s : σL, Either.next IL IR (Either.Left s) =
      (IL.next s).map (fun p => (p.1, Either.Left p.2))) ∧
    (∀ s : σR, Either.next IL IR (Either.Right s) =
      (IR.next s).map (fun p => (p.1, Either.Right p.2))) ∧
    (∀ s : σL, Either.size_hint IL IR (Either.Left s) = IL.size_hint s) ∧
    (∀ s : σR, Either.size_hint IL IR (Either.Right s) = IR.size_hint s) ∧
    ((Either.iterOps (listIter Nat) (listIter Nat)).drain 4 (Either.Left [0, 1, 2]) =
      [0, 1, 2]) ∧
    ((listIter Nat).drain 4 [0, 1, 2] = [0, 1, 2]) ∧
    (Either.next (listIter Nat) (listIter Nat) (Either.Left ([] : List Nat)) = none) :=
  ⟨fun _ => rfl, fun _ => rfl, fun _ => rfl, fun _ => rfl, rfl, rfl, rfl⟩

/-- C6: when both variants report an exact remaining count agreeing with
their size hint (the contract of the exact-size capability, and its
inherited default), the union's exact remaining count, which the empty
impl in the source leaves as the default over the forwarded size hint,
equals the active variant's exact remaining count. -/
theorem spec_c6 (σL σR α : Type) (IL : IterOps σL α) (IR : IterOps σR α)
    (lenL : σL → Nat) (lenR : σR → Nat)
    (hL : ∀ s, lenL s = (IL.size_hint s).1)
    (hR : ∀ s, lenR s = (IR.size_hint s).1) :
    (∀ s : σL, Either.len IL IR (Either.Left s) = lenL s) ∧
    (∀ s : σR, Either.len IL IR (Either.Right s) = lenR s) :=
  ⟨fun s => (hL s).symm, fun s => (hR s).symm⟩

/-- Witness for C6 at the concrete list iterator on both sides, whose
exact remaining count is the list length. -/
theorem spec_c6_witness :
    Either.len (listIter Nat) (listIter Nat) (Either.Left [0, 1, 2]) = [0, 1, 2].length :=
  (spec_c6 (List Nat) (List Nat) Nat (listIter Nat) (listIter Nat)
    List.length List.length (fun _ => rfl) (fun _ => rfl)).1 [0, 1, 2]

/-- C7: reading through the union into a caller-supplied buffer returns
exactly the active variant's read result (count, buffer and failure passed
through), and the bulk read-to-end is forwarded explicitly to the active
variant's own read-to-end; in particular the union wrapping a 256-byte
source of byte 255, read into a 16-byte buffer, returns count 16 with all
buffer bytes 255, and read-to-end on that source yields exactly its 256
bytes. -/
theorem spec_c7 (ε σL σR : Type) (RL : ReadOps ε σL) (RR : ReadOps ε σR) :
    (∀ (s : σL) (buf : List Nat), Either.read RL RR (Either.Left s) buf =
      (RL.read s buf).map (fun r => (Either.Left r.1, r.2.1, r.2.2))) ∧
    (∀ (s : σR) (buf : List Nat), Either.read RL RR (Either.Right s) buf =
      (RR.read s buf).map (fun r => (Either.Right r.1, r.2.1, r.2.2))) ∧
    (∀ (s : σL) (buf : List Nat), Either.read_to_end RL RR (Either.Left s) buf =
      (RL.read_to_end s buf).map (fun r => (Either.Left r.1, r.2.1, r.2.2))) ∧
    (∀ (s : σR) (buf : List Nat), Either.read_to_end RL RR (Either.Right s) buf =
      (RR.read_to_end s buf).map (fun r => (Either.Right r.1, r.2.1, r.2.2))) ∧
    (Either.read sliceReadOps sliceReadOps (Either.Left (List.replicate 256 255))
      (List.replicate 16 0) =
      .ok (Either.Left (List.replicate 240 255), 16, List.replicate 16 255)) ∧
    (Either.read_to_end sliceReadOps sliceReadOps
      (Either.Left (List.replicate 256 255)) [] =
      .ok (Either.Left [], 256, List.replicate 256 255)) :=
  ⟨fun _ _ => rfl, fun _ _ => rfl, fun _ _ => rfl, fun _ _ => rfl, rfl, rfl⟩

/-- C8: writing a buffer through the union returns exactly the active
variant's write result and flush returns exactly the active variant's
flush result; any failure of the active variant's write or flush is
propagated verbatim; and writing a 16-byte buffer into the union wrapping
a 256-byte sink returns count 16 with the first 16 sink bytes equal to
the input. -/
theorem spec_c8 (ε σL σR : Type) (WL : WriteOps ε σL) (WR : WriteOps ε σR) :
    (∀ (s : σL) (buf : List Nat), Either.write WL WR (Either.Left s) buf =
      (WL.write s buf).map (fun r => (Either.Left r.1, r.2))) ∧
    (∀ (s : σR) (buf : List Nat), Either.write WL WR (Either.Right s) buf =
      (WR.write s buf).map (fun r => (Either.Right r.1, r.2))) ∧
    (∀ s : σL, Either.flush WL WR (Either.Left s) = (WL.flush s).map Either.Left) ∧
    (∀ s : σR, Either.flush WL WR (Either.Right s) = (WR.flush s).map Either.Right) ∧
    (∀ (s : σL) (buf : List Nat) (e : ε), WL.write s buf = .error e →
      Either.write WL WR (Either.Left s) buf = .error e) ∧
    (∀ (s : σR) (buf : List Nat) (e : ε), WR.write s buf = .error e →
      Either.write WL WR (Either.Right s) buf = .error e) ∧
    (∀ (s : σL) (e : ε), WL.flush s = .error e →
      Either.flush WL WR (Either.Left s) = .error e) ∧
    (∀ (s : σR) (e : ε), WR.flush s = .error e →
      Either.flush WL WR (Either.Right s) = .error e) ∧
    (Either.write sliceWriteOps sliceWriteOps
      (Either.Left ⟨[], List.replicate 256 0⟩) (List.replicate 16 1) =
      .ok (Either.Left ⟨List.replicate 16 1, List.replicate 240 0⟩, 16)) ∧
    ((SliceSink.bytes ⟨List.replicate 16 1, List.replicate 240 0⟩).take 16 =
      List.replicate 16 1) :=
  ⟨fun _ _ => rfl, fun _ _ => rfl, fun _ => rfl, fun _ => rfl,
   fun s buf e h => by simp [Either.write, h, Except.map],
   fun s buf e h => by simp [Either.write, h, Except.map],
   fun s e h => by simp [Either.flush, h, Except.map],
   fun s e h => by simp [Either.flush, h, Except.map],
   rfl, by decide⟩

/-- Witness for C8 at a writer whose operations always fail: the union
propagates the failure verbatim. -/
theorem spec_c8_witness :
    Either.write failWriteOps failWriteOps (Either.Left ()) [] = .error 7 :=
  (spec_c8 Nat Unit Unit failWriteOps failWriteOps).2.2.2.2.1 () [] 7 rfl
